import Mathlib

/-!
Shallow embedding of the ts-jpeg codec (decoder `src/decoder.ts`, encoder
source) and proofs about the behaviours its specification describes.
All byte values are modelled as `Nat`; byte slices as `List Nat`; JS typed
arrays as `List Nat` with `List.set` (whose out-of-bounds write is a no-op,
exactly the semantics of a JS typed-array store past the end).
-/

namespace TsJpeg

/-- Structured error kinds: one constructor per distinct `throw` site of the
decoder that the claims mention.  The message formatting of the source is
abstracted into the carried data (marker value, excess amounts). -/
inductive DecErr where
  | resolutionExceeded (excessMP : Nat)
  | memoryLimitExceeded (excessMB : Nat)
  | invalidSamplingFactor
  | blockIndexOutOfRange
  | unexpectedMarker (marker : Nat)
  deriving DecidableEq, Repr

/-! ## Memory budget (decoder.ts `totalBytesAllocated` / `maxMemoryUsageBytes`) -/

/-- The decoder's class-level memory accounting state: `totalBytesAllocated`
and `maxMemoryUsageBytes` (decoder.ts lines 105-106). -/
structure MemState where
  totalBytesAllocated : Nat
  maxMemoryUsageBytes : Nat
  deriving DecidableEq, Repr

/-- `JpegImage.resetMaxMemoryUsage` (decoder.ts lines 123-126): zeroes the
counter and installs the ceiling. -/
def resetMaxMemoryUsage (maxMemoryUsageBytes : Nat) : MemState :=
  { totalBytesAllocated := 0, maxMemoryUsageBytes := maxMemoryUsageBytes }

/-- `JpegImage.requestMemoryAllocation` (decoder.ts lines 132-139).  Every
call site of the source passes a product of non-negative sizes, so the
increase is a `Nat`.  `Math.ceil((impact - max) / 1024 / 1024)` on the exact
integer difference is ceiling division by 2^20. -/
def requestMemoryAllocation (mem : MemState) (increaseAmount : Nat) :
    Except DecErr MemState :=
  let totalMemoryImpactBytes := mem.totalBytesAllocated + increaseAmount
  if totalMemoryImpactBytes > mem.maxMemoryUsageBytes then
    .error (.memoryLimitExceeded
      ((totalMemoryImpactBytes - mem.maxMemoryUsageBytes + (1024 * 1024 - 1))
        / (1024 * 1024)))
  else
    .ok { mem with totalBytesAllocated := totalMemoryImpactBytes }

/-- The memory state after a request: on failure the source throws before the
assignment to `totalBytesAllocated`, so the counter is left unchanged. -/
def memAfterRequest (mem : MemState) (increaseAmount : Nat) : MemState :=
  match requestMemoryAllocation mem increaseAmount with
  | .ok m => m
  | .error _ => mem

/-- The top of `decode` (decoder.ts line 1382):
`JpegImage.resetMaxMemoryUsage(opts.maxMemoryUsageInMB * 1024 * 1024)`. -/
def decodeInitMem (maxMemoryUsageInMB : Nat) : MemState :=
  resetMaxMemoryUsage (maxMemoryUsageInMB * 1024 * 1024)

/-! ## Zig-zag tables -/

/-- The decoder's zig-zag table `dctZigZag` (decoder.ts lines 29-94): entry
`i` is the raster position of the `i`-th coefficient in zig-zag order. -/
def dctZigZag : List Nat :=
  [0, 1, 8, 16, 9, 2, 3, 10, 17, 24, 32, 25, 18, 11, 4, 5,
   12, 19, 26, 33, 40, 48, 41, 34, 27, 20, 13, 6, 7, 14, 21, 28,
   35, 42, 49, 56, 57, 50, 43, 36, 29, 22, 15, 23, 30, 37, 44, 51,
   58, 59, 52, 45, 38, 31, 39, 46, 53, 60, 61, 54, 47, 55, 62, 63]

/-- The encoder's zig-zag table `ZigZag` (encoder source lines 67-132): entry
`p` is the zig-zag index of raster position `p`. -/
def ZigZag : List Nat :=
  [0, 1, 5, 6, 14, 15, 27, 28, 2, 4, 7, 13, 16, 26, 29, 42,
   3, 8, 12, 17, 25, 30, 41, 43, 9, 11, 18, 24, 31, 40, 44, 53,
   10, 19, 23, 32, 39, 45, 52, 54, 20, 22, 33, 38, 46, 51, 55, 60,
   21, 34, 37, 47, 50, 56, 59, 61, 35, 36, 48, 49, 57, 58, 62, 63]

/-! ## SOF parsing and the resolution ceiling (decoder.ts `parse`, SOF case) -/

/-- `(this.opts.maxResolutionInMP || 100) * 1000 * 1000` (decoder.ts line
195): a missing option and the falsy value `0` both fall back to 100. -/
def maxResolutionInPixels (maxResolutionInMP : Option Nat) : Nat :=
  (match maxResolutionInMP with
   | none => 100
   | some 0 => 100
   | some n => n) * 1000 * 1000

/-- One parsed SOF component entry: `h`, `v`, `quantizationIdx` (decoder.ts
lines 399-416). -/
structure SOFComponent where
  h : Nat
  v : Nat
  quantizationIdx : Nat
  deriving DecidableEq, Repr

/-- The geometry `prepareComponents` computes for the frame (decoder.ts lines
211-259). -/
structure FrameGeom where
  maxH : Nat
  maxV : Nat
  mcusPerLine : Nat
  mcusPerColumn : Nat
  deriving DecidableEq, Repr

/-- The per-component sampling-factor validation of the SOF loop (decoder.ts
lines 405-407): `h <= 0 || v <= 0` fails. -/
def checkSampling : List SOFComponent → Option DecErr
  | [] => none
  | c :: rest =>
    if c.h = 0 || c.v = 0 then some .invalidSamplingFactor
    else checkSampling rest

/-- `Math.ceil(a / b)` on exact non-negative integers. -/
def jsCeilDiv (a b : Nat) : Nat := (a + (b - 1)) / b

/-- Blocks allocated for one component by `prepareComponents`:
`blocksPerColumnForMcu * blocksPerLineForMcu` blocks of 256 bytes each
(decoder.ts lines 234-239, `blocksToAllocate * 256`). -/
def componentAllocBytes (g : FrameGeom) (c : SOFComponent) : Nat :=
  (g.mcusPerColumn * c.v) * (g.mcusPerLine * c.h) * 256

/-- Fold the per-component `requestMemoryAllocation` calls of
`prepareComponents`, stopping at the first failure with the memory state it
observed. -/
def allocComponents (g : FrameGeom) :
    MemState → List SOFComponent → Except DecErr Unit × MemState
  | mem, [] => (.ok (), mem)
  | mem, c :: rest =>
    match requestMemoryAllocation mem (componentAllocBytes g c) with
    | .error e => (.error e, mem)
    | .ok m => allocComponents g m rest

/-- `prepareComponents` (decoder.ts lines 211-259): computes the sampling
maxima and MCU grid, then requests memory for every component's block grid. -/
def prepareComponents (scanLines samplesPerLine : Nat)
    (comps : List SOFComponent) (mem : MemState) :
    Except DecErr FrameGeom × MemState :=
  let maxH := comps.foldl (fun m c => max m c.h) 1
  let maxV := comps.foldl (fun m c => max m c.v) 1
  let g : FrameGeom :=
    { maxH := maxH, maxV := maxV,
      mcusPerLine := jsCeilDiv samplesPerLine (8 * maxH),
      mcusPerColumn := jsCeilDiv scanLines (8 * maxV) }
  match allocComponents g mem comps with
  | (.error e, m) => (.error e, m)
  | (.ok _, m) => (.ok g, m)

/-- The SOF0/SOF1/SOF2 case of `parse` (decoder.ts lines 379-419): after
reading `scanLines` and `samplesPerLine`, the resolution ceiling is checked
(lines 391-395) BEFORE the component list is read and before
`prepareComponents` allocates any block storage; `Math.ceil((pixelsInFrame -
maxResolutionInPixels) / 1e6)` is exact ceiling division by 10^6.  Returns the
parse outcome together with the memory state after the case. -/
def parseSOF (maxResolutionInMP : Option Nat) (scanLines samplesPerLine : Nat)
    (comps : List SOFComponent) (mem : MemState) :
    Except DecErr FrameGeom × MemState :=
  let pixelsInFrame := scanLines * samplesPerLine
  let maxPix := maxResolutionInPixels maxResolutionInMP
  if pixelsInFrame > maxPix then
    (.error (.resolutionExceeded ((pixelsInFrame - maxPix + 999999) / 1000000)),
     mem)
  else
    match checkSampling comps with
    | some e => (.error e, mem)
    | none => prepareComponents scanLines samplesPerLine comps mem

/-! ## Bit reader of `decodeScan` (decoder.ts `readBit`, lines 973-993) -/

/-- A JS indexed read `data[i]` whose result feeds integer arithmetic: an
out-of-range read yields `undefined`, which the subsequent coercions turn
into 0. -/
def jsByte (data : List Nat) (i : Nat) : Nat := data.getD i 0

/-- The captured state `readBit` works on: the compressed byte slice, the
cursor `offset`, and the bit buffer `bitsData` / `bitsCount`. -/
structure BitState where
  data : List Nat
  offset : Nat
  bitsData : Nat
  bitsCount : Nat
  deriving DecidableEq, Repr

/-- `readBit` (decoder.ts lines 973-993).  With buffered bits it serves the
next most-significant bit.  On refill it fetches `data[offset++]`; if that
byte is `0xFF` it consumes one more byte: a following `0x00` means the `0xFF`
is literal entropy data (stuffing removed), while ANY nonzero following byte
— restart markers `0xD0..0xD7` included — throws `unexpected marker`.  A read
past the end of the slice yields JS `undefined`, which every later arithmetic
step coerces to 0; it is modelled with `List.getD _ 0`. -/
def readBit (s : BitState) : Except DecErr (Nat × BitState) :=
  if s.bitsCount > 0 then
    .ok ((s.bitsData >>> (s.bitsCount - 1)) &&& 1,
      { s with bitsCount := s.bitsCount - 1 })
  else
    let bitsData := jsByte s.data s.offset
    if bitsData = 0xFF then
      let nextByte := jsByte s.data (s.offset + 1)
      if nextByte ≠ 0 then
        .error (.unexpectedMarker (bitsData * 256 + nextByte))
      else
        .ok (bitsData >>> 7,
          { s with offset := s.offset + 2, bitsData := bitsData, bitsCount := 7 })
    else
      .ok (bitsData >>> 7,
        { s with offset := s.offset + 1, bitsData := bitsData, bitsCount := 7 })

/-! ## DRI and the scan's restart interval (decoder.ts `parse` / `decodeScan`) -/

/-- The two `parse` cases the restart machinery involves.  `dri n` is a DRI
segment declaring interval `n`; `sos` is a start-of-scan. -/
inductive MarkerSeg where
  | dri (interval : Nat)
  | sos
  deriving DecidableEq, Repr

/-- The fragment of `parse`'s state the restart machinery touches: the outer
`resetInterval` variable (decoder.ts line 264) and the `resetInterval`
arguments actually handed to `decodeScan`, in order. -/
structure ParseFrag where
  resetIntervalVar : Nat
  scanCalls : List Nat
  deriving DecidableEq, Repr

/-- One iteration of `parse`'s marker switch, restricted to the two cases
above.  The DRI case (decoder.ts lines 447-451) stores the read interval in
the outer variable; the SOS case (lines 458-492) declares a NEW local
`const resetInterval: number = 0` (line 476) shadowing the outer one, and
passes that local — always 0 — to `decodeScan`. -/
def parseStep (s : ParseFrag) : MarkerSeg → ParseFrag
  | .dri n => { s with resetIntervalVar := n }
  | .sos =>
    let resetInterval : Nat := 0
    { s with scanCalls := s.scanCalls ++ [resetInterval] }

/-- Run the marker fragment from the initial state of `parse`. -/
def parseMarkers (segs : List MarkerSeg) : ParseFrag :=
  segs.foldl parseStep { resetIntervalVar := 0, scanCalls := [] }

/-- `decodeScan`'s normalization of its `resetInterval` argument (decoder.ts
lines 1290-1292): 0 becomes `mcuExpected`, one interval covering the scan. -/
def effectiveResetInterval (resetInterval mcuExpected : Nat) : Nat :=
  if resetInterval = 0 then mcuExpected else resetInterval

/-- The MCU counts of the successive restart intervals the `decodeScan` while
loop (decoder.ts lines 1295-1356) processes: chunks of the effective interval
until `mcuExpected` MCUs are done, with predictor/eobrun resets and
byte-alignment at each chunk boundary. -/
def restartChunks : Nat → Nat → Nat → List Nat
  | 0, _, _ => []
  | _ + 1, _, 0 => []
  | fuel + 1, interval, remaining =>
    min interval remaining ::
      restartChunks fuel interval (remaining - min interval remaining)

/-- The restart-interval chunking a scan actually runs with, given the DRI
value `parse` read earlier: `parse` hands `decodeScan` the shadowed constant
0, never the DRI value. -/
def scanChunksUsed (driInterval mcuExpected : Nat) : List Nat :=
  let passed := (parseMarkers [.dri driInterval, .sos]).scanCalls.getD 0 0
  restartChunks mcuExpected (effectiveResetInterval passed mcuExpected) mcuExpected

/-! ## Pixel data assembly of `decode` (decoder.ts lines 1385-1410) -/

/-- One pixel's RGB triple as produced by `getData`'s 3-component path. -/
def flattenRGB : List (Nat × Nat × Nat) → List Nat
  | [] => []
  | (r, g, b) :: rest => r :: g :: b :: flattenRGB rest

/-- The output-pixel enumeration of `getData` (decoder.ts lines 801-825): `y`
outer, `x` inner, three bytes per pixel, into a fresh buffer of
`dataLength = width * height * components.length` bytes.  The per-pixel RGB
values (component sampling plus color transform) are abstracted as `px`. -/
def getData3 (width height : Nat) (px : Nat → Nat → Nat × Nat × Nat) : List Nat :=
  flattenRGB ((List.range (width * height)).map fun i => px (i % width) (i / width))

/-- The 3-component loop of `copyToImageData` (decoder.ts lines 912-927):
reads R,G,B from `getData`'s output and stores R,G,B (and 255 when
`formatAsRGBA`) at consecutive indices of the image buffer.  JS typed-array
stores past the end are silently dropped, which is `List.set`'s out-of-bounds
behaviour. -/
def copyToImageData3 (formatAsRGBA : Bool) :
    List Nat → List Nat → Nat → List Nat
  | r :: g :: b :: rest, arr, j =>
    let arr := ((arr.set j r).set (j + 1) g).set (j + 2) b
    if formatAsRGBA then
      copyToImageData3 formatAsRGBA rest (arr.set (j + 3) 255) (j + 4)
    else
      copyToImageData3 formatAsRGBA rest arr (j + 3)
  | _, arr, _ => arr

/-- The pixel-data construction of `decode` for a successfully parsed
3-component image (decoder.ts lines 1385-1410): `image.data` is
`new Uint8ClampedArray(decoder.getData(w, h).buffer)` — a view of exactly the
`w * h * 3` bytes `getData` allocated — and `copyToImageData` then writes its
RGBA quadruples into that same fixed-size buffer. -/
def decodePixelData3 (width height : Nat) (formatAsRGBA : Bool)
    (px : Nat → Nat → Nat × Nat × Nat) : List Nat :=
  copyToImageData3 formatAsRGBA (getData3 width height px)
    (getData3 width height px) 0

/-! ## APP1 / EXIF handling (encoder `writeAPP1`, decoder `parse` APP1 case) -/

/-- `writeWord` (encoder source lines 1090-1093): big-endian 16-bit write,
each byte masked with `& 0xFF`. -/
def writeWord16 (value : Nat) : List Nat :=
  [(value >>> 8) &&& 0xFF, value &&& 0xFF]

/-- The encoder's check in `writeAPP1` (lines 503-506): does the buffer
already start with the four ASCII bytes `Exif`?  A JS read past the end is
`undefined` and compares unequal to any byte, hence `List.get?`. -/
def startsWithExif (exifBuffer : List Nat) : Bool :=
  exifBuffer.get? 0 == some 0x45 && exifBuffer.get? 1 == some 0x78
    && exifBuffer.get? 2 == some 0x69 && exifBuffer.get? 3 == some 0x66

/-- `writeAPP1` (encoder source lines 497-523), as the byte sequence it
appends: the APP1 marker, then — if the buffer starts with `Exif` — the
length `buffer + 2` and the buffer verbatim; otherwise the length
`buffer + 5 + 2`, the five bytes `Exif\0`, and the buffer. -/
def writeAPP1 (exifBuffer : List Nat) : List Nat :=
  [0xFF, 0xE1] ++
    (if startsWithExif exifBuffer then
      writeWord16 (exifBuffer.length + 2)
    else
      writeWord16 (exifBuffer.length + 5 + 2) ++ [0x45, 0x78, 0x69, 0x66, 0]) ++
    exifBuffer

/-- The decoder's APP1 test (decoder.ts lines 326-330): the payload starts
with the five bytes `Exif\0` (`0x45 0x78 0x69 0x66 0x00`). -/
def isExifHeader (appData : List Nat) : Bool :=
  appData.get? 0 == some 0x45 && appData.get? 1 == some 0x78
    && appData.get? 2 == some 0x69 && appData.get? 3 == some 0x66
    && appData.get? 4 == some 0

/-- The APP1 case of `parse` (decoder.ts lines 325-333): on an `Exif\0`
payload the stored `exifBuffer` is `appData.subarray(5, appData.length)`. -/
def extractExif (appData : List Nat) : Option (List Nat) :=
  if isExifHeader appData then some (appData.drop 5) else none

/-- `readDataBlock` (decoder.ts lines 204-209): read the big-endian length
word, then take `length - 2` payload bytes. -/
def readDataBlock (bytes : List Nat) : List Nat :=
  let length := jsByte bytes 0 * 256 + jsByte bytes 1
  (bytes.drop 2).take (length - 2)

/-- The decoder's handling of one APP1 segment (marker already consumed):
`readDataBlock` then the EXIF extraction. -/
def decodeAPP1Segment (seg : List Nat) : Option (List Nat) :=
  extractExif (readDataBlock seg)

/-- Encode an EXIF buffer into an APP1 segment and decode it back: the
composition C7 is about. -/
def exifRoundTrip (exifBuffer : List Nat) : Option (List Nat) :=
  decodeAPP1Segment ((writeAPP1 exifBuffer).drop 2)

/-! ## Block dispatch in `decodeScan` (decoder.ts `decodeMcu`/`decodeBlock`) -/

/-- `decodeMcu` (decoder.ts lines 1238-1249): computes the target block
coordinates of component `(hSamp, vSamp)` inside MCU `mcu`; when the block
row is past the allocated grid (`blocks[blockRow] === undefined`) and
tolerant decoding is on, the block is silently dropped (`.ok none`); without
tolerant decoding the source dereferences `undefined` and the decode fails —
the spec's `BlockIndexOutOfRange`.  Otherwise the addressed block is handed
to the active decode function. -/
def decodeMcuTarget (blocks : List (List (List Int)))
    (mcusPerLine hSamp vSamp : Nat) (mcu row col : Nat)
    (tolerantDecoding : Bool) : Except DecErr (Option (List Int)) :=
  let blockRow := (mcu / mcusPerLine) * vSamp + row
  let blockCol := (mcu % mcusPerLine) * hSamp + col
  match blocks[blockRow]? with
  | none => if tolerantDecoding then .ok none else .error .blockIndexOutOfRange
  | some blocksRow => .ok (some (blocksRow.getD blockCol []))

/-- `decodeBlock` (decoder.ts lines 1252-1261): the single-component variant
addressing block `mcu` in raster order. -/
def decodeBlockTarget (blocks : List (List (List Int)))
    (blocksPerLine : Nat) (mcu : Nat) (tolerantDecoding : Bool) :
    Except DecErr (Option (List Int)) :=
  let blockRow := mcu / blocksPerLine
  let blockCol := mcu % blocksPerLine
  match blocks[blockRow]? with
  | none => if tolerantDecoding then .ok none else .error .blockIndexOutOfRange
  | some blocksRow => .ok (some (blocksRow.getD blockCol []))

/-! ## Encoder quality and quantization tables (`setQuality` / `initQuantTables`) -/

/-- The quality the encoder effectively works with for a given `quality`
argument.  `encode(imgData, quality)` substitutes 50 for `undefined`; the
`JPEGEncoder` constructor and `encoder.encode` guard `setQuality` with the JS
truthiness test `if (quality)`, so the explicit argument 0 also falls back to
`setQuality(50)`; `setQuality` itself clamps: `quality <= 0` becomes 1 and
`quality > 100` becomes 100 (encoder source lines 470-478, 706-708,
803-809). -/
def effectiveQuality : Option Int → Nat
  | none => 50
  | some q =>
    if q = 0 then 50
    else if q ≤ 0 then 1
    else if q > 100 then 100
    else q.toNat

/-- The scale factor of `setQuality` (encoder source lines 815-821):
`sf = quality < 50 ? floor(5000/quality) : floor(200 - quality*2)`, exact on
the clamped integer quality. -/
def scaleSF (quality : Nat) : Nat :=
  if quality < 50 then 5000 / quality else 200 - quality * 2

/-- The base luminance quantization table `YQT` (encoder source lines
835-900). -/
def YQT : List Nat :=
  [16, 11, 10, 16, 24, 40, 51, 61,
   12, 12, 14, 19, 26, 58, 60, 55,
   14, 13, 16, 24, 40, 57, 69, 56,
   14, 17, 22, 29, 51, 87, 80, 62,
   18, 22, 37, 56, 68, 109, 103, 77,
   24, 35, 55, 64, 81, 104, 113, 92,
   49, 64, 78, 87, 103, 121, 120, 101,
   72, 92, 95, 98, 112, 100, 103, 99]

/-- The base chrominance quantization table `UVQT` (encoder source lines
908-973). -/
def UVQT : List Nat :=
  [17, 18, 24, 47, 99, 99, 99, 99,
   18, 21, 26, 66, 99, 99, 99, 99,
   24, 26, 56, 99, 99, 99, 99, 99,
   47, 66, 99, 99, 99, 99, 99, 99,
   99, 99, 99, 99, 99, 99, 99, 99,
   99, 99, 99, 99, 99, 99, 99, 99,
   99, 99, 99, 99, 99, 99, 99, 99,
   99, 99, 99, 99, 99, 99, 99, 99]

/-- The encoder's zig-zag table read as a function. -/
def zz (i : Nat) : Nat := ZigZag.getD i 0

/-- One scaled table entry of `initQuantTables` (encoder source lines
902-905 / 975-978): `t = clamp(1, 255, floor((base[i]*sf + 50)/100))`. -/
def quantEntry (base : List Nat) (sf i : Nat) : Nat :=
  let t := (base.getD i 0 * sf + 50) / 100
  max 1 (min 255 t)

/-- The quantization-table loop of `initQuantTables`: for `i = 0..63` the
entry computed from `base[i]` is stored at position `ZigZag[i]` of the
64-slot table.  (`ZigZag` maps `{0..63}` onto `{0..63}`, so every slot of the
initially-undefined JS `Array(64)` is written; the placeholder 0 of the model
never survives.) -/
def buildQuantTable (base : List Nat) (sf : Nat) : List Nat :=
  (List.range 64).foldl (fun acc i => acc.set (zz i) (quantEntry base sf i))
    (List.replicate 64 0)

/-- The luminance table `YTable` the encoder holds after `setQuality` ran for
a given quality argument. -/
def YTableFor (q : Option Int) : List Nat :=
  buildQuantTable YQT (scaleSF (effectiveQuality q))

/-- The chrominance table `UVTable` after `setQuality`. -/
def UVTableFor (q : Option Int) : List Nat :=
  buildQuantTable UVQT (scaleSF (effectiveQuality q))

/-- The AAN scale factors `aasf` (encoder source lines 981-990), as the exact
rationals the floating-point literals denote. -/
def aasf : List ℚ :=
  [1, 1.387039845, 1.306562965, 1.175875602, 1, 0.785694958, 0.541196100,
   0.275899379]

/-- The reciprocal table loop of `initQuantTables` (encoder source lines
992-999): for `k = row*8 + col`,
`fdtbl[k] = 1 / (table[ZigZag[k]] * aasf[row] * aasf[col] * 8)`. -/
def fdtbl (table : List Nat) (k : Nat) : ℚ :=
  1 / ((table.getD (zz k) 0 : ℚ) * aasf.getD (k / 8) 1 * aasf.getD (k % 8) 1 * 8)

/-- `fdtbl_Y` for a given quality argument. -/
def fdtblYFor (q : Option Int) (k : Nat) : ℚ := fdtbl (YTableFor q) k

/-- `fdtbl_UV` for a given quality argument. -/
def fdtblUVFor (q : Option Int) (k : Nat) : ℚ := fdtbl (UVTableFor q) k

/-! ## Theorems -/

theorem flattenRGB_length (l : List (Nat × Nat × Nat)) :
    (flattenRGB l).length = 3 * l.length := by
  induction l with
  | nil => rfl
  | cons p rest ih =>
    obtain ⟨r, g, b⟩ := p
    simp only [flattenRGB, List.length_cons, ih]
    ring

theorem copyToImageData3_length :
    ∀ (formatAsRGBA : Bool) (src arr : List Nat) (j : Nat),
      (copyToImageData3 formatAsRGBA src arr j).length = arr.length
  | _, [], _, _ => by simp [copyToImageData3]
  | _, [r], _, _ => by simp [copyToImageData3]
  | _, [r, g], _, _ => by simp [copyToImageData3]
  | fmt, r :: g :: b :: rest, arr, j => by
    cases fmt <;>
      simp [copyToImageData3, copyToImageData3_length _ rest _ _, List.length_set]

theorem getData3_length (width height : Nat) (px : Nat → Nat → Nat × Nat × Nat) :
    (getData3 width height px).length = 3 * (width * height) := by
  simp [getData3, flattenRGB_length]

/-- C1: the RGBA invariant (`pixel_data.length = 4 * width * height` with
every 4th byte 255 when `formatAsRGBA = true`) FAILS on the code: `decode`
builds `image.data` as a view over the buffer `getData` allocated, which for
a 3-component image holds `3 * width * height` bytes, and the RGBA quadruples
`copyToImageData` writes past that length are dropped by the typed array.
At a 1x1 image with RGB `(10, 20, 30)` the returned data is `[10, 20, 30]`:
length 3, not 4, and no alpha byte at all. -/
theorem rgba_invariant_violated :
    (∀ (width height : Nat) (px : Nat → Nat → Nat × Nat × Nat),
      (decodePixelData3 width height true px).length = 3 * (width * height)) ∧
    decodePixelData3 1 1 true (fun _ _ => (10, 20, 30)) = [10, 20, 30] ∧
    (decodePixelData3 1 1 true (fun _ _ => (10, 20, 30))).length ≠ 4 * (1 * 1) := by
  refine ⟨fun width height px => ?_, by decide, by decide⟩
  unfold decodePixelData3
  rw [copyToImageData3_length, getData3_length]

/-- C2: the restart interval read from a DRI segment never reaches
`decodeScan`: `parse` stores it in the outer `resetInterval` variable, but the
SOS case declares a shadowing `const resetInterval: number = 0` and passes
that.  With DRI interval 2 before a 4-MCU scan, the scan runs one single
restart interval of 4 MCUs (`[4]`), not the claimed two intervals of 2 MCUs
(`[2, 2]`) with RST markers expected between them. -/
theorem dri_interval_ignored :
    (parseMarkers [.dri 2, .sos]).resetIntervalVar = 2 ∧
    (parseMarkers [.dri 2, .sos]).scanCalls = [0] ∧
    scanChunksUsed 2 4 = [4] ∧
    scanChunksUsed 2 4 ≠ [2, 2] := by
  refine ⟨rfl, rfl, by decide, by decide⟩

/-- C3 counterexample: with an empty bit buffer and the stream bytes
`0xFF 0xD0` — `0xD0` being RST0, inside `0xD0..0xD7` — `readBit` does NOT
return "no bit" with a restart signal: it fails with the unexpected-marker
error carrying `0xFFD0`. -/
theorem readBit_rst_counterexample :
    (0xD0 ≤ 0xD0 ∧ 0xD0 ≤ 0xD7) ∧
    readBit { data := [0xFF, 0xD0], offset := 0, bitsData := 0, bitsCount := 0 }
      = .error (.unexpectedMarker 0xFFD0) :=
  ⟨by decide, rfl⟩

/-- C3 (amended): when `read_bit` refills and fetches a `0xFF` byte, a
following `0x00` makes the `0xFF` a literal data byte (stuffing removed, the
bit `1` is returned and the remaining bits of `0xFF` stay buffered); ANY
nonzero following byte — the restart markers `0xD0..0xD7` included — makes
the decode fail with the unexpected-marker error.  `read_bit` never signals
a restart; restart markers are consumed only between restart intervals by
`decodeScan` itself. -/
theorem readBit_refill_spec (s : BitState)
    (h0 : s.bitsCount = 0) (hff : jsByte s.data s.offset = 0xFF) :
    (jsByte s.data (s.offset + 1) = 0 →
      readBit s = .ok (1,
        { s with offset := s.offset + 2, bitsData := 0xFF, bitsCount := 7 })) ∧
    (jsByte s.data (s.offset + 1) ≠ 0 →
      readBit s = .error
        (.unexpectedMarker (0xFF * 256 + jsByte s.data (s.offset + 1)))) := by
  constructor <;> intro hnb <;> simp [readBit, h0, hff, hnb]

/-- Witness for `readBit_refill_spec`: on the bytes `0xFF 0x00` the stuffed
zero is removed and the literal `0xFF` supplies its first bit. -/
theorem readBit_refill_spec_witness :
    readBit { data := [0xFF, 0x00, 0xAB], offset := 0, bitsData := 0, bitsCount := 0 }
      = .ok (1, { data := [0xFF, 0x00, 0xAB], offset := 2,
                  bitsData := 0xFF, bitsCount := 7 }) :=
  (readBit_refill_spec
    { data := [0xFF, 0x00, 0xAB], offset := 0, bitsData := 0, bitsCount := 0 }
    rfl rfl).1 rfl

/-- C10: the decoder's `dctZigZag` and the encoder's `ZigZag` are mutually
inverse permutations of `{0..63}`: composing the encoder's coefficient
reordering with the decoder's placement is the identity on block positions. -/
theorem zigzag_tables_mutually_inverse :
    ((List.range 64).all fun i =>
      ZigZag.getD (dctZigZag.getD i 0) 0 == i
        && dctZigZag.getD (ZigZag.getD i 0) 0 == i) = true := by
  decide

/-- C5: at the entry of every top-level decode the budget counter is reset to
0 with the ceiling taken from `maxMemoryUsageInMB`; a request of `delta` bytes
fails with `MemoryLimitExceeded` exactly when `counter + delta > ceiling`,
leaving the counter unchanged on failure and adding `delta` otherwise; hence
the counter never decreases within a decode call. -/
theorem memory_budget_spec :
    (∀ mb : Nat, decodeInitMem mb =
      { totalBytesAllocated := 0, maxMemoryUsageBytes := mb * 1024 * 1024 }) ∧
    (∀ (s : MemState) (delta : Nat),
      requestMemoryAllocation s delta =
        if s.totalBytesAllocated + delta > s.maxMemoryUsageBytes then
          .error (.memoryLimitExceeded
            ((s.totalBytesAllocated + delta - s.maxMemoryUsageBytes
              + (1024 * 1024 - 1)) / (1024 * 1024)))
        else
          .ok { totalBytesAllocated := s.totalBytesAllocated + delta,
                maxMemoryUsageBytes := s.maxMemoryUsageBytes }) ∧
    (∀ (s : MemState) (delta : Nat),
      ((∃ e, requestMemoryAllocation s delta = .error e) ↔
        s.totalBytesAllocated + delta > s.maxMemoryUsageBytes)) ∧
    (∀ (s : MemState) (delta : Nat),
      s.totalBytesAllocated ≤ (memAfterRequest s delta).totalBytesAllocated) := by
  refine ⟨fun mb => rfl, fun s delta => rfl, fun s delta => ?_, fun s delta => ?_⟩
  · constructor
    · rintro ⟨e, he⟩
      by_contra hgt
      simp only [requestMemoryAllocation, if_neg hgt] at he
      exact Except.noConfusion he
    · intro hgt
      exact ⟨.memoryLimitExceeded
        ((s.totalBytesAllocated + delta - s.maxMemoryUsageBytes
          + (1024 * 1024 - 1)) / (1024 * 1024)),
        by simp only [requestMemoryAllocation, if_pos hgt]⟩
  · unfold memAfterRequest requestMemoryAllocation
    by_cases hgt : s.totalBytesAllocated + delta > s.maxMemoryUsageBytes
    · simp only [if_pos hgt]
      exact Nat.le_refl _
    · simp only [if_neg hgt]
      exact Nat.le_add_right _ _

/-- C4: whenever the SOF declares `scanLines * samplesPerLine` pixels above
the effective resolution ceiling, the SOF case fails with
`ResolutionExceeded` carrying `ceil((pixels - ceiling)/1e6)` megapixels, and
the memory state is untouched: the failure precedes every per-component block
allocation (and hence any scan decoding, which only starts at a later SOS
marker). -/
theorem sof_resolution_ceiling (maxResolutionInMP : Option Nat)
    (scanLines samplesPerLine : Nat) (comps : List SOFComponent)
    (mem : MemState)
    (hgt : scanLines * samplesPerLine > maxResolutionInPixels maxResolutionInMP) :
    parseSOF maxResolutionInMP scanLines samplesPerLine comps mem =
      (.error (.resolutionExceeded
        ((scanLines * samplesPerLine - maxResolutionInPixels maxResolutionInMP
          + 999999) / 1000000)), mem) := by
  unfold parseSOF
  simp only [if_pos hgt]

/-- Witness for `sof_resolution_ceiling`: a 2000x2000 SOF against a 1 MP
ceiling fails with an excess of 3 MP and leaves the memory counter at 0. -/
theorem sof_resolution_ceiling_witness :
    parseSOF (some 1) 2000 2000 [⟨1, 1, 0⟩] (decodeInitMem 512) =
      (.error (.resolutionExceeded 3), decodeInitMem 512) := by
  have h := sof_resolution_ceiling (some 1) 2000 2000 [⟨1, 1, 0⟩]
    (decodeInitMem 512) (by decide)
  simpa using h

theorem word16_roundtrip (n : Nat) (h : n ≤ 65535) :
    ((n >>> 8) &&& 0xFF) * 256 + (n &&& 0xFF) = n := by
  have h1 : n >>> 8 = n / 2 ^ 8 := Nat.shiftRight_eq_div_pow n 8
  have h2 : ∀ m : Nat, m &&& 0xFF = m % 2 ^ 8 := fun m =>
    Nat.and_pow_two_sub_one_eq_mod m 8
  rw [h1, h2, h2]
  omega

/-- C8 counterexample: for the APP1 payload `Exif\0 0xAA 0xBB` the decoder
stores `payload[5..] = [0xAA, 0xBB]`, not the claimed
`payload[6..] = [0xBB]`. -/
theorem exif_slice_counterexample :
    extractExif [0x45, 0x78, 0x69, 0x66, 0, 0xAA, 0xBB] = some [0xAA, 0xBB] ∧
    List.drop 6 [0x45, 0x78, 0x69, 0x66, 0, 0xAA, 0xBB] = [0xBB] ∧
    extractExif [0x45, 0x78, 0x69, 0x66, 0, 0xAA, 0xBB]
      ≠ some (List.drop 6 [0x45, 0x78, 0x69, 0x66, 0, 0xAA, 0xBB]) :=
  ⟨rfl, rfl, by decide⟩

/-- C8 (amended): when an APP1 payload starts with the five bytes `Exif\0`,
the decoder stores `exif_bytes = payload[5..]` — the payload with exactly the
five header bytes removed. -/
theorem exif_slice_spec (appData : List Nat) (h : isExifHeader appData = true) :
    extractExif appData = some (appData.drop 5) := by
  simp [extractExif, h]

/-- Witness for `exif_slice_spec` at a concrete payload. -/
theorem exif_slice_spec_witness :
    extractExif [0x45, 0x78, 0x69, 0x66, 0, 0x11] = some [0x11] :=
  exif_slice_spec [0x45, 0x78, 0x69, 0x66, 0, 0x11] (by decide)

/-- C7 counterexample: `e = [0x45, 0x78, 0x69, 0x66, 0, 0xAA]` is obtainable
as a decoded `exif_bytes` (first conjunct), but because it starts with
`Exif` the encoder writes it verbatim and re-decoding strips its first five
bytes: the round trip returns `[0xAA]`, not `e`. -/
theorem exif_roundtrip_counterexample :
    extractExif [0x45, 0x78, 0x69, 0x66, 0, 0x45, 0x78, 0x69, 0x66, 0, 0xAA]
      = some [0x45, 0x78, 0x69, 0x66, 0, 0xAA] ∧
    exifRoundTrip [0x45, 0x78, 0x69, 0x66, 0, 0xAA] = some [0xAA] ∧
    exifRoundTrip [0x45, 0x78, 0x69, 0x66, 0, 0xAA]
      ≠ some [0x45, 0x78, 0x69, 0x66, 0, 0xAA] :=
  ⟨rfl, rfl, by decide⟩

/-- C7 (amended): the encoder writes the buffer verbatim when it already
starts with `Exif` and prepends `Exif\0` otherwise; consequently the
encode/decode round trip returns the buffer unchanged for every buffer that
does NOT already start with the four bytes `Exif` (and whose length keeps the
16-bit segment length field exact). -/
theorem exif_roundtrip_spec (e : List Nat) (hne : startsWithExif e = false)
    (hlen : e.length + 7 ≤ 65535) :
    exifRoundTrip e = some e := by
  have hword := word16_roundtrip (e.length + 5 + 2) (by omega)
  have htake : (e.length + 5 + 2 - 2) = e.length + 5 := by omega
  simp only [exifRoundTrip, writeAPP1, hne, Bool.false_eq_true, if_false,
    writeWord16, decodeAPP1Segment, readDataBlock, jsByte,
    List.cons_append, List.nil_append, List.append_assoc,
    List.drop_succ_cons, List.drop_zero, List.getD_cons_zero,
    List.getD_cons_succ, hword, htake]
  simp only [List.take_succ_cons, show ∀ l : List Nat, List.take (e.length) (e ++ l) = e from
    fun l => by rw [List.take_append_of_le_length (Nat.le_refl _), List.take_length]]
  simp [extractExif, isExifHeader]

/-- Witness for `exif_roundtrip_spec`: a three-byte buffer that does not
start with `Exif` survives the APP1 round trip unchanged. -/
theorem exif_roundtrip_spec_witness :
    exifRoundTrip [1, 2, 3] = some [1, 2, 3] :=
  exif_roundtrip_spec [1, 2, 3] (by decide) (by decide)

/-- C9: during scan decoding, a target block row past the component's
allocated grid is silently dropped when `tolerantDecoding` is on and fails
with `BlockIndexOutOfRange` when it is off — in both the interleaved
(`decodeMcu`) and the single-component (`decodeBlock`) paths — and that error
can never arise while tolerant mode is enabled. -/
theorem tolerant_mode_spec :
    (∀ (blocks : List (List (List Int))) (mcusPerLine hSamp vSamp mcu row col : Nat),
      blocks.length ≤ (mcu / mcusPerLine) * vSamp + row →
        decodeMcuTarget blocks mcusPerLine hSamp vSamp mcu row col true = .ok none ∧
        decodeMcuTarget blocks mcusPerLine hSamp vSamp mcu row col false
          = .error .blockIndexOutOfRange) ∧
    (∀ (blocks : List (List (List Int))) (blocksPerLine mcu : Nat),
      blocks.length ≤ mcu / blocksPerLine →
        decodeBlockTarget blocks blocksPerLine mcu true = .ok none ∧
        decodeBlockTarget blocks blocksPerLine mcu false
          = .error .blockIndexOutOfRange) ∧
    (∀ (blocks : List (List (List Int))) (mcusPerLine hSamp vSamp mcu row col : Nat),
      decodeMcuTarget blocks mcusPerLine hSamp vSamp mcu row col true
        ≠ .error .blockIndexOutOfRange) ∧
    (∀ (blocks : List (List (List Int))) (blocksPerLine mcu : Nat),
      decodeBlockTarget blocks blocksPerLine mcu true
        ≠ .error .blockIndexOutOfRange) := by
  refine ⟨?_, ?_, ?_, ?_⟩
  · intro blocks mcusPerLine hSamp vSamp mcu row col hout
    have hnone : blocks[(mcu / mcusPerLine) * vSamp + row]? = none :=
      List.getElem?_eq_none hout
    constructor <;> simp [decodeMcuTarget, hnone]
  · intro blocks blocksPerLine mcu hout
    have hnone : blocks[mcu / blocksPerLine]? = none :=
      List.getElem?_eq_none hout
    constructor <;> simp [decodeBlockTarget, hnone]
  · intro blocks mcusPerLine hSamp vSamp mcu row col
    unfold decodeMcuTarget
    cases hg : blocks[(mcu / mcusPerLine) * vSamp + row]? <;> simp [hg]
  · intro blocks blocksPerLine mcu
    unfold decodeBlockTarget
    cases hg : blocks[mcu / blocksPerLine]? <;> simp [hg]

/-- Witness for `tolerant_mode_spec`: with an empty block grid, block (0,0)
is dropped in tolerant mode and fails without it. -/
theorem tolerant_mode_spec_witness :
    (decodeMcuTarget [] 1 1 1 0 0 0 true = .ok none ∧
      decodeMcuTarget [] 1 1 1 0 0 0 false = .error .blockIndexOutOfRange) ∧
    (decodeBlockTarget [] 1 0 true = .ok none ∧
      decodeBlockTarget [] 1 0 false = .error .blockIndexOutOfRange) :=
  ⟨tolerant_mode_spec.1 [] 1 1 1 0 0 0 (Nat.zero_le _),
   tolerant_mode_spec.2.1 [] 1 0 (Nat.zero_le _)⟩

theorem getD_set_self (l : List Nat) (n v : Nat) (h : n < l.length) :
    (l.set n v).getD n 0 = v := by
  induction l generalizing n with
  | nil => simp at h
  | cons a t ih =>
    cases n with
    | zero => rfl
    | succ m => exact ih m (Nat.lt_of_succ_lt_succ h)

theorem getD_set_of_ne (l : List Nat) (n p v : Nat) (h : n ≠ p) :
    (l.set n v).getD p 0 = l.getD p 0 := by
  induction l generalizing n p with
  | nil => rfl
  | cons a t ih =>
    cases n with
    | zero =>
      cases p with
      | zero => exact absurd rfl h
      | succ m => rfl
    | succ m =>
      cases p with
      | zero => rfl
      | succ r => exact ih m r (fun he => h (by rw [he]))

theorem foldl_set_untouched (g f : Nat → Nat) :
    ∀ (l : List Nat) (acc : List Nat) (p : Nat), (∀ j ∈ l, g j ≠ p) →
      (l.foldl (fun a j => a.set (g j) (f j)) acc).getD p 0 = acc.getD p 0
  | [], _, _, _ => rfl
  | j :: rest, acc, p, h => by
    rw [List.foldl_cons,
      foldl_set_untouched g f rest _ p (fun k hk => h k (List.mem_cons_of_mem j hk))]
    exact getD_set_of_ne _ _ _ _ (h j (List.mem_cons_self j rest))

theorem foldl_set_getD (g f : Nat → Nat) :
    ∀ (l : List Nat) (acc : List Nat) (i : Nat), i ∈ l →
      (∀ j ∈ l, g j = g i → j = i) → g i < acc.length →
      (l.foldl (fun a j => a.set (g j) (f j)) acc).getD (g i) 0 = f i
  | [], _, i, hi, _, _ => absurd hi (List.not_mem_nil i)
  | j :: rest, acc, i, hi, hinj, hlen => by
    rw [List.foldl_cons]
    by_cases hmem : i ∈ rest
    · exact foldl_set_getD g f rest _ i hmem
        (fun k hk he => hinj k (List.mem_cons_of_mem j hk) he)
        (by rw [List.length_set]; exact hlen)
    · have hij : j = i := by
        cases hi with
        | head => rfl
        | tail _ hmem2 => exact absurd hmem2 hmem
      subst hij
      have hne : ∀ k ∈ rest, g k ≠ g j := fun k hk he =>
        absurd ((hinj k (List.mem_cons_of_mem j hk) he) ▸ hk) hmem
      rw [foldl_set_untouched g f rest _ _ hne]
      exact getD_set_self _ _ _ hlen

theorem zz_lt : ∀ i, i < 64 → zz i < 64 := by decide

theorem dctZigZag_zz : ∀ i, i < 64 → dctZigZag.getD (zz i) 0 = i := by decide

theorem zz_inj (i j : Nat) (hi : i < 64) (hj : j < 64) (he : zz i = zz j) :
    i = j := by
  have h1 := dctZigZag_zz i hi
  have h2 := dctZigZag_zz j hj
  rw [he] at h1
  exact h1.symm.trans h2

theorem buildQuantTable_getD (base : List Nat) (sf i : Nat) (h : i < 64) :
    (buildQuantTable base sf).getD (zz i) 0 = quantEntry base sf i := by
  unfold buildQuantTable
  exact foldl_set_getD zz (quantEntry base sf) (List.range 64) _ i
    (List.mem_range.mpr h)
    (fun j hj he => zz_inj j i (List.mem_range.mp hj) h he)
    (by rw [List.length_replicate]; exact zz_lt i h)

/-- C6 counterexample: for the explicit quality argument 0 the claim's clamp
to `[1, 100]` prescribes quality 1 (hence `sf = 5000` and a luminance table
starting with 255), but the JS truthiness test makes the encoder use the
default 50, whose table starts with 16. -/
theorem quality_zero_counterexample :
    effectiveQuality (some 0) = 50 ∧
    (max 1 (min 100 (0 : Int))).toNat = 1 ∧
    effectiveQuality (some 0) ≠ (max 1 (min 100 (0 : Int))).toNat ∧
    (YTableFor (some 0)).getD 0 0 = 16 ∧
    (buildQuantTable YQT (scaleSF 1)).getD 0 0 = 255 ∧
    (YTableFor (some 0)).getD 0 0 ≠ (buildQuantTable YQT (scaleSF 1)).getD 0 0 := by
  refine ⟨rfl, rfl, by decide, by decide, by decide, by decide⟩

/-- C6 (amended): for every NONZERO quality argument (and for a missing one,
which defaults to 50) the encoder clamps the quality to `[1, 100]`, scales
both base tables by `sf = quality < 50 ? floor(5000/quality) : 200 - 2*quality`
with each entry `clamp(1, 255, floor((base[i]*sf + 50)/100))` stored at the
zig-zag position `ZigZag[i]`, and precomputes the reciprocals
`fdtbl[k] = 1/(table[ZigZag[k]] * aasf[k/8] * aasf[k%8] * 8)`.  The explicit
argument 0 is NOT clamped to 1: JS truthiness routes it to the default 50
(see the counterexample). -/
theorem quality_quant_tables (q : Int) (hq : q ≠ 0) (i : Nat) (hi : i < 64) :
    effectiveQuality (some q) = (max 1 (min 100 q)).toNat ∧
    effectiveQuality none = 50 ∧
    scaleSF (effectiveQuality (some q)) =
      (if effectiveQuality (some q) < 50 then 5000 / effectiveQuality (some q)
       else 200 - effectiveQuality (some q) * 2) ∧
    (YTableFor (some q)).getD (zz i) 0 =
      max 1 (min 255
        ((YQT.getD i 0 * scaleSF (effectiveQuality (some q)) + 50) / 100)) ∧
    (UVTableFor (some q)).getD (zz i) 0 =
      max 1 (min 255
        ((UVQT.getD i 0 * scaleSF (effectiveQuality (some q)) + 50) / 100)) ∧
    fdtblYFor (some q) i =
      1 / (((YTableFor (some q)).getD (zz i) 0 : ℚ)
        * aasf.getD (i / 8) 1 * aasf.getD (i % 8) 1 * 8) ∧
    fdtblUVFor (some q) i =
      1 / (((UVTableFor (some q)).getD (zz i) 0 : ℚ)
        * aasf.getD (i / 8) 1 * aasf.getD (i % 8) 1 * 8) := by
  refine ⟨?_, rfl, rfl, buildQuantTable_getD YQT _ i hi,
    buildQuantTable_getD UVQT _ i hi, rfl, rfl⟩
  show (if q = 0 then 50 else if q ≤ 0 then 1 else if q > 100 then 100
    else q.toNat) = (max 1 (min 100 q)).toNat
  split_ifs <;> omega

/-- Witness for `quality_quant_tables` at quality 80 and table index 0. -/
theorem quality_quant_tables_witness :
    (80 : Int) ≠ 0 ∧ (0 : Nat) < 64 ∧
    effectiveQuality (some 80) = (max 1 (min 100 (80 : Int))).toNat ∧
    (YTableFor (some 80)).getD (zz 0) 0 =
      max 1 (min 255
        ((YQT.getD 0 0 * scaleSF (effectiveQuality (some 80)) + 50) / 100)) :=
  ⟨by decide, by decide,
   (quality_quant_tables 80 (by decide) 0 (by decide)).1,
   (quality_quant_tables 80 (by decide) 0 (by decide)).2.2.2.1⟩

end TsJpeg
